import Mathlib

/-!
Shallow embedding of the python-service-example repository
(`src/app/db/models.py`, `src/app/db/enums.py`, `src/app/tasks/task_crud.py`,
`src/app/users/user_crud.py`, `src/app/projects/project_crud.py`) and proofs
about its CRUD layer: role upsert tie-breaking, pagination metadata, error
taxonomy, soft-delete filtering, partial-update frame conditions and query
building.

Tables are embedded as Lean lists of row structures; a SQL statement that
touches rows becomes a function from the table to the new table, paired with
the value the cursor returns.  Exceptions (`HTTPException`) become an explicit
error value.  Timestamps are `Nat` clock readings passed in explicitly
(`datetime.now` / `CURRENT_TIMESTAMP`).
-/

namespace SpecProof

/-- `HTTPException(status_code, detail)` from FastAPI, as raised throughout
`src/app/db/models.py` and the crud modules. -/
structure HttpError where
  status : Nat
  detail : String
deriving DecidableEq, Repr

/-- `ProjectRole` from `src/app/db/enums.py` (lines 38-53), declaration order
MAPPER, VALIDATOR, FIELD_MANAGER, ASSOCIATE_PROJECT_MANAGER, PROJECT_MANAGER. -/
inductive ProjectRole where
  | MAPPER
  | VALIDATOR
  | FIELD_MANAGER
  | ASSOCIATE_PROJECT_MANAGER
  | PROJECT_MANAGER
deriving DecidableEq, Repr

/-- Modelled from the spec: the `user_roles` table DDL (the SQL type of the
`role` column, which fixes the meaning of `user_roles.role < EXCLUDED.role` in
`DbUserRole.create`) is not under `src/`.  The spec states the ranking follows
declaration order: "ranking follows declaration order, MAPPER lowest,
PROJECT_MANAGER highest". -/
def ProjectRole.rank : ProjectRole → Nat
  | .MAPPER => 0
  | .VALIDATOR => 1
  | .FIELD_MANAGER => 2
  | .ASSOCIATE_PROJECT_MANAGER => 3
  | .PROJECT_MANAGER => 4

/-- The SQL comparison `user_roles.role < EXCLUDED.role` under the declared
role ordering. -/
def roleLt (a b : ProjectRole) : Bool :=
  a.rank < b.rank

/-- A row of table `user_roles` (`DbUserRole` model fields,
`src/app/db/models.py` lines 39-44). -/
structure UserRoleRow where
  user_id : Nat
  project_id : Nat
  role : ProjectRole
deriving DecidableEq, Repr

/-- The conflict-target match of `ON CONFLICT (user_id, project_id)`. -/
def roleRowMatches (user_id project_id : Nat) (r : UserRoleRow) : Bool :=
  r.user_id == user_id && r.project_id == project_id

/-- The INSERT in `DbUserRole.create` (`src/app/db/models.py` lines 61-72):
`INSERT INTO user_roles (user_id, project_id, role) VALUES (...) ON CONFLICT
(user_id, project_id) DO UPDATE SET role = EXCLUDED.role WHERE
user_roles.role < EXCLUDED.role`. -/
def upsertUserRole (table : List UserRoleRow) (user_id project_id : Nat)
    (role : ProjectRole) : List UserRoleRow :=
  if table.any (roleRowMatches user_id project_id) then
    table.map fun r =>
      if roleRowMatches user_id project_id r then
        if roleLt r.role role then { r with role := role } else r
      else r
  else
    table ++ [⟨user_id, project_id, role⟩]

/-- The follow-up SELECT in `DbUserRole.create` (lines 76-83):
`SELECT * FROM user_roles WHERE user_id = ... AND project_id = ...` with
`fetchone`. -/
def selectUserRole (table : List UserRoleRow) (user_id project_id : Nat) :
    Option UserRoleRow :=
  table.find? (roleRowMatches user_id project_id)

namespace DbUserRole

/-- `DbUserRole.create` (`src/app/db/models.py` lines 46-92): run the upsert,
then select the latest row for the pair; if the select finds nothing, raise a
500, else return the row. -/
def create (table : List UserRoleRow) (project_id user_id : Nat)
    (role : ProjectRole) : List UserRoleRow × Except HttpError UserRoleRow :=
  let table' := upsertUserRole table user_id project_id role
  match selectUserRole table' user_id project_id with
  | some latest_role => (table', .ok latest_role)
  | none => (table', .error ⟨500, "Failed to create user role"⟩)

end DbUserRole

/-- `find?` over a map that rewrites exactly the rows matched by the same
predicate, by an update that preserves the predicate. -/
theorem find?_map_update {α : Type} (l : List α) (p : α → Bool) (f : α → α)
    (hp : ∀ a, p a = true → p (f a) = true) :
    (l.map fun a => if p a then f a else a).find? p = (l.find? p).map f := by
  induction l with
  | nil => rfl
  | cons x xs ih =>
    by_cases hx : p x = true
    · simp [List.find?_cons, hx, hp x hx]
    · simp only [Bool.not_eq_true] at hx
      simp [List.find?_cons, hx, ih]

/-- `find?` over a map is `none` when the predicate fails on every image. -/
theorem find?_map_none {α : Type} (l : List α) (p : α → Bool) (f : α → α)
    (hf : ∀ a, p (f a) = false) :
    (l.map f).find? p = none := by
  rw [List.find?_eq_none]
  intro x hx
  rcases List.mem_map.mp hx with ⟨a, _, rfl⟩
  simp [hf a]

/-- C1: for a stored `(user_id, project_id)` row, `DbUserRole.create` replaces
the stored role iff the incoming role ranks strictly higher in the declared
ordering, otherwise leaves it unchanged, and in all cases returns the
resulting row. -/
theorem userRole_upsert_higher_rank_wins
    (table : List UserRoleRow) (user_id project_id : Nat) (r : UserRoleRow)
    (incoming : ProjectRole)
    (hfind : selectUserRole table user_id project_id = some r) :
    selectUserRole (DbUserRole.create table project_id user_id incoming).1
        user_id project_id =
      some (if roleLt r.role incoming then { r with role := incoming } else r) ∧
    (DbUserRole.create table project_id user_id incoming).2 =
      .ok (if roleLt r.role incoming then { r with role := incoming } else r) := by
  have hp := List.find?_some hfind
  have hm := List.mem_of_find?_eq_some hfind
  have hmem : table.any (roleRowMatches user_id project_id) = true :=
    List.any_eq_true.mpr ⟨r, hm, hp⟩
  have hsel :
      selectUserRole (upsertUserRole table user_id project_id incoming)
        user_id project_id =
      some (if roleLt r.role incoming then { r with role := incoming } else r) := by
    unfold upsertUserRole selectUserRole
    rw [hmem]
    simp only [if_pos]
    have hcomm := find?_map_update table (roleRowMatches user_id project_id)
      (fun a => if roleLt a.role incoming then { a with role := incoming } else a)
      (by
        intro a ha
        by_cases h : roleLt a.role incoming
        · simp only [roleRowMatches, Bool.and_eq_true, beq_iff_eq] at ha ⊢
          simpa [h] using ha
        · simpa [h] using ha)
    rw [hcomm]
    unfold selectUserRole at hfind
    rw [hfind]
    rfl
  refine ⟨?_, ?_⟩
  · simp only [DbUserRole.create]
    rw [hsel]
    exact hsel
  · simp only [DbUserRole.create]
    rw [hsel]

/-- Witness for C1: upserting PROJECT_MANAGER over a stored VALIDATOR changes
the stored role to PROJECT_MANAGER; upserting MAPPER over a stored VALIDATOR
leaves VALIDATOR. -/
theorem userRole_upsert_higher_rank_wins_witness :
    (selectUserRole [⟨1, 1, .VALIDATOR⟩] 1 1 = some ⟨1, 1, .VALIDATOR⟩ ∧
      (DbUserRole.create [⟨1, 1, .VALIDATOR⟩] 1 1 .PROJECT_MANAGER).2 =
        .ok ⟨1, 1, .PROJECT_MANAGER⟩) ∧
    (DbUserRole.create [⟨1, 1, .VALIDATOR⟩] 1 1 .MAPPER).2 =
      .ok ⟨1, 1, .VALIDATOR⟩ := by
  refine ⟨⟨by decide, ?_⟩, ?_⟩
  · have h := userRole_upsert_higher_rank_wins [⟨1, 1, .VALIDATOR⟩] 1 1
      ⟨1, 1, .VALIDATOR⟩ .PROJECT_MANAGER (by decide)
    simpa using h.2
  · have h := userRole_upsert_higher_rank_wins [⟨1, 1, .VALIDATOR⟩] 1 1
      ⟨1, 1, .VALIDATOR⟩ .MAPPER (by decide)
    simpa using h.2

/-- Modelled from the spec: `PaginationInfo` lives in `app/db/utils.py`, which
is not under `src/` (only its importers `user_schemas.py`, `user_crud.py` and
`task_crud.py` are).  Spec, data model: "Pagination info: requested page,
results-per-page, computed total pages, flags for previous/next availability,
and the page numbers to use for each." -/
structure PaginationInfo where
  page : Nat
  per_page : Nat
  total_pages : Nat
  has_prev : Bool
  has_next : Bool
  prev_num : Option Nat
  next_num : Option Nat
deriving DecidableEq, Repr

/-- Modelled from the spec: `get_pagination(page, count, results_per_page,
total)` lives in `app/db/utils.py`, which is not under `src/`.  Spec §4.1:
"Output: whether a previous page exists (page > 1) and whether a next page
exists (page * results_per_page < total).  Computes total page count as
ceiling(total / results_per_page)."  The `count` argument (rows in the current
page) is taken at every call site but drives none of the described outputs. -/
def get_pagination (page _count results_per_page total : Nat) : PaginationInfo :=
  { page := page
    per_page := results_per_page
    total_pages := total ⌈/⌉ results_per_page
    has_prev := 1 < page
    has_next := page * results_per_page < total
    prev_num := if 1 < page then some (page - 1) else none
    next_num := if page * results_per_page < total then some (page + 1) else none }

/-- C2 counterexample: the claim requires both `has_prev ↔ page > 1` and
"when total = 0 ... no previous page"; at page = 2, results_per_page = 3,
total = 0 the first clause forces a previous page while the second forbids
one, so the claim as stated fails: the metadata reports a previous page. -/
theorem get_pagination_zero_total_prev_counterexample :
    1 ≤ 2 ∧ 0 < 3 ∧
      (get_pagination 2 0 3 0).has_prev = true ∧
      ¬ ((0 : Nat) = 0 → (get_pagination 2 0 3 0).has_prev = false) := by
  decide

/-- C2 (amended): for page ≥ 1 and results_per_page > 0, the pagination
metadata has total_pages = ceiling(total / results_per_page), a next page iff
page * results_per_page < total, a previous page iff page > 1, and for
total = 0 zero pages with no next page — and no previous page when page
is 1 (the previous-page flag depends only on the requested page). -/
theorem get_pagination_correct (page count results_per_page total : Nat)
    (hpage : 1 ≤ page) (hrpp : 0 < results_per_page) :
    (get_pagination page count results_per_page total).total_pages =
        total ⌈/⌉ results_per_page ∧
    ((get_pagination page count results_per_page total).has_next = true ↔
        page * results_per_page < total) ∧
    ((get_pagination page count results_per_page total).has_prev = true ↔
        1 < page) ∧
    (total = 0 →
      (get_pagination page count results_per_page total).total_pages = 0 ∧
      (get_pagination page count results_per_page total).has_next = false ∧
      (page = 1 →
        (get_pagination page count results_per_page total).has_prev = false)) := by
  refine ⟨rfl, by simp [get_pagination], by simp [get_pagination], ?_⟩
  rintro rfl
  refine ⟨?_, by simp [get_pagination], ?_⟩
  · show 0 ⌈/⌉ results_per_page = 0
    rw [Nat.ceilDiv_eq_add_pred_div, Nat.zero_add]
    exact Nat.div_eq_of_lt (by omega)
  · rintro rfl
    simp [get_pagination]

/-- Witness for C2 at page 1, 3 results per page, 7 total rows, and the
zero-total edge case at page 1. -/
theorem get_pagination_correct_witness :
    1 ≤ 1 ∧ 0 < 3 ∧
    ((get_pagination 1 3 3 7).total_pages = 7 ⌈/⌉ 3 ∧
      ((get_pagination 1 3 3 7).has_next = true ↔ 1 * 3 < 7) ∧
      ((get_pagination 1 3 3 7).has_prev = true ↔ 1 < 1) ∧
      (7 = 0 →
        (get_pagination 1 3 3 7).total_pages = 0 ∧
        (get_pagination 1 3 3 7).has_next = false ∧
        (1 = 1 → (get_pagination 1 3 3 7).has_prev = false))) :=
  ⟨by decide, by decide, get_pagination_correct 1 3 3 7 (by decide) (by decide)⟩

/-- A row of table `users` (the `DbUser` model column fields,
`src/app/db/models.py` lines 117-132; the derived relationship fields
`project_roles` and `orgs_managed` are aggregates, not columns).  Datetimes
are embedded as `Nat`. -/
structure UserRow where
  id : Nat
  username : String
  role : Option String := none
  profile_img : Option String := none
  name : Option String := none
  city : Option String := none
  country : Option String := none
  email_address : Option String := none
  is_email_verified : Bool := false
  is_expert : Bool := false
  api_key : Option String := none
  registered_at : Option Nat := none
  last_login_at : Option Nat := none
deriving DecidableEq, Repr

/-- Truthiness of the guard expression `cls.one(db, user_in.username)` in
`DbUser.create` (`src/app/db/models.py` line 242): the async method `one` is
called WITHOUT `await`, so the expression is a coroutine object, and a
coroutine object is truthy in Python regardless of the table contents. -/
def oneCoroutineTruthy (_table : List UserRow) (_username : String) : Bool :=
  true

/-- Whether a user with the given username exists: what the guard in
`DbUser.create` would need to test for the documented Conflict behaviour. -/
def usernameExists (table : List UserRow) (username : String) : Bool :=
  table.any fun r => r.username == username

/-- The `ON CONFLICT ("username") DO UPDATE SET ...` clause of `DbUser.create`
(lines 250-257): role, name and api_key are taken from the excluded
(incoming) row.  (The clause also sets a `mapping_level` column that is not
part of the `DbUser` model; it is omitted from the embedded row.) -/
def mergeOnUsernameConflict (stored incoming : UserRow) : UserRow :=
  { stored with
    role := incoming.role
    name := incoming.name
    api_key := incoming.api_key }

namespace DbUser

/-- `DbUser.create` (`src/app/db/models.py` lines 234-279).  With
`ignore_conflict` false the guard `if not ignore_conflict and cls.one(...)`
tests the truthiness of an unawaited coroutine, so it fires on every call and
raises the 409; with `ignore_conflict` true, the INSERT carries the conflict
statement and merges on a duplicate username.  (The duplicate-username branch
without the conflict clause would surface as a storage unique-violation
error; it is unreachable because the guard fires whenever `ignore_conflict`
is false.) -/
def create (table : List UserRow) (user_in : UserRow) (ignore_conflict : Bool) :
    List UserRow × Except HttpError UserRow :=
  if !ignore_conflict && oneCoroutineTruthy table user_in.username then
    (table, .error ⟨409, "Username (" ++ user_in.username ++ ") already exists!"⟩)
  else
    -- dump_and_check_model(user_in): id and username are mandatory on UserIn,
    -- so the dump is never empty and no 400 is raised on this path
    if usernameExists table user_in.username then
      if ignore_conflict then
        let table' := table.map fun r =>
          if r.username == user_in.username then mergeOnUsernameConflict r user_in
          else r
        match table'.find? (fun r => r.username == user_in.username) with
        | some new_user => (table', .ok new_user)
        | none => (table', .error ⟨500, "Unknown SQL error"⟩)
      else
        (table, .error ⟨500, "unique constraint violation"⟩)
    else
      (table ++ [user_in], .ok user_in)

end DbUser

/-- C3: evaluating `DbUser.create` at its failing input — a username that
does NOT exist in the table, with `ignore_conflict` false.  No user named
"alice" exists, yet the strict create raises 409 Conflict and inserts
nothing, because the existence guard tests an unawaited coroutine; the claim
(and the spec's error taxonomy) require Conflict only for a duplicate
username, and a successful insert here. -/
theorem dbUser_create_strict_always_conflicts :
    usernameExists [] "alice" = false ∧
    DbUser.create [] { id := 1, username := "alice" } false =
      ([], .error ⟨409, "Username (alice) already exists!"⟩) :=
  ⟨rfl, rfl⟩

/-- A row of table `projects` (the `Project` schema fields,
`src/app/projects/project_schemas.py` lines 27-34); the UUID key is embedded
as a `Nat`, the settings dict as an association list. -/
structure ProjectRow where
  id : Nat
  name : String
  description : Option String
  status : String
  settings : List (String × String)
  owner_id : Nat
  is_active : Bool
  created_at : Nat
  updated_at : Nat
  deleted_at : Option Nat
deriving DecidableEq, Repr

/-- Lower-cased character list of a string, for case-insensitive matching. -/
def lowerChars (s : String) : List Char :=
  s.toList.map Char.toLower

/-- SQL `col ILIKE '%term%'`: case-insensitive substring match.  A NULL
column yields SQL NULL, which does not satisfy a WHERE clause. -/
def ilikeContains (col : Option String) (term : String) : Bool :=
  match col with
  | none => false
  | some s => decide (lowerChars term <:+: lowerChars s)

/-- `get_project` (`src/app/projects/project_crud.py` lines 32-39):
`SELECT * FROM projects WHERE id = %s AND deleted_at IS NULL`, `fetchone`. -/
def get_project (table : List ProjectRow) (project_id : Nat) :
    Option ProjectRow :=
  table.find? fun r => r.id == project_id && r.deleted_at == none

/-- `delete_project` (`src/app/projects/project_crud.py` lines 119-128):
`UPDATE projects SET deleted_at = CURRENT_TIMESTAMP, is_active = false WHERE
id = %s AND deleted_at IS NULL RETURNING id`, and the returned Bool is
whether a row came back. -/
def delete_project (table : List ProjectRow) (project_id now : Nat) :
    List ProjectRow × Bool :=
  (table.map fun r =>
      if r.id == project_id && r.deleted_at == none then
        { r with deleted_at := some now, is_active := false }
      else r,
    table.any fun r => r.id == project_id && r.deleted_at == none)

/-- The WHERE clause shared by the count and select queries of
`get_paginated_projects` (lines 51-63): `deleted_at IS NULL AND (name ILIKE
%s OR description ILIKE %s)` with the search term wrapped in wildcards. -/
def projectMatches (search : String) (r : ProjectRow) : Bool :=
  r.deleted_at == none &&
    (ilikeContains (some r.name) search || ilikeContains r.description search)

/-- `ORDER BY created_at DESC` over project rows. -/
def orderProjectsByCreatedDesc (l : List ProjectRow) : List ProjectRow :=
  List.insertionSort (fun a b => b.created_at ≤ a.created_at) l

/-- The `PaginatedProjects` response schema
(`src/app/projects/project_schemas.py` lines 37-39). -/
structure PaginatedProjects where
  total : Nat
  items : List ProjectRow
deriving DecidableEq, Repr

/-- `get_paginated_projects` (`src/app/projects/project_crud.py` lines
42-79): count of matching rows, plus the matching rows ordered by
created_at descending with `LIMIT results_per_page OFFSET
(page - 1) * results_per_page`. -/
def get_paginated_projects (table : List ProjectRow) (page results_per_page : Nat)
    (search : String) : PaginatedProjects :=
  let matching := table.filter (projectMatches search)
  { total := matching.length
    items := ((orderProjectsByCreatedDesc matching).drop
        ((page - 1) * results_per_page)).take results_per_page }

/-- C4: soft-deleting a live project row stamps its deletion timestamp and
clears its active flag without removing any row, and afterwards `get_project`
on that id returns nothing and every `get_paginated_projects` listing
excludes the project. -/
theorem delete_project_soft_delete_excludes
    (table : List ProjectRow) (project_id now : Nat) (r : ProjectRow)
    (hmem : r ∈ table) (hid : r.id = project_id) (hlive : r.deleted_at = none) :
    (delete_project table project_id now).1.length = table.length ∧
    { r with deleted_at := some now, is_active := false } ∈
      (delete_project table project_id now).1 ∧
    get_project (delete_project table project_id now).1 project_id = none ∧
    (∀ page rpp search q,
      q ∈ (get_paginated_projects (delete_project table project_id now).1
        page rpp search).items → q.id ≠ project_id) := by
  set f : ProjectRow → ProjectRow := fun q =>
    if q.id == project_id && q.deleted_at == none then
      { q with deleted_at := some now, is_active := false }
    else q with hf
  have htable : (delete_project table project_id now).1 = table.map f := rfl
  have hdead : ∀ q ∈ table.map f, q.id = project_id → q.deleted_at ≠ none := by
    intro q hq hqid
    rcases List.mem_map.mp hq with ⟨a, _, rfl⟩
    by_cases hc : (a.id == project_id && a.deleted_at == none) = true
    · simp only [Bool.and_eq_true, beq_iff_eq] at hc
      have hfa : f a = { a with deleted_at := some now, is_active := false } := by
        simp only [hf]
        rw [if_pos (by simp [hc.1, hc.2])]
      rw [hfa]
      simp
    · have hfa : f a = a := by
        simp only [hf]
        exact if_neg hc
      rw [hfa] at hqid ⊢
      intro hnone
      exact hc (by simp [hqid, hnone])
  refine ⟨?_, ?_, ?_, ?_⟩
  · rw [htable, List.length_map]
  · have hfr : f r = { r with deleted_at := some now, is_active := false } := by
      simp [hf, hid, hlive]
    have hmem' := List.mem_map_of_mem f hmem
    rw [hfr] at hmem'
    rw [htable]
    exact hmem'
  · rw [htable]
    unfold get_project
    rw [List.find?_eq_none]
    intro q hq hcontra
    simp only [Bool.and_eq_true, beq_iff_eq] at hcontra
    exact hdead q hq hcontra.1 hcontra.2
  · intro page rpp search q hq hqid
    rw [htable] at hq
    simp only [get_paginated_projects] at hq
    have h1 := List.take_subset _ _ hq
    have h2 := List.drop_subset _ _ h1
    have h3 : q ∈ (table.map f).filter (projectMatches search) := by
      unfold orderProjectsByCreatedDesc at h2
      exact (List.mem_insertionSort (fun a b => b.created_at ≤ a.created_at)).mp h2
    have h4 := List.mem_filter.mp h3
    have h5 : q.deleted_at = none := by
      have hmatch := h4.2
      simp only [projectMatches, Bool.and_eq_true, beq_iff_eq] at hmatch
      exact hmatch.1
    exact hdead q h4.1 hqid h5

/-- Witness for C4: a single live project is soft-deleted; afterwards the row
count is unchanged, the stamped row is present, lookup misses and the listing
excludes it. -/
theorem delete_project_soft_delete_excludes_witness :
    (⟨7, "p", none, "active", [], 3, true, 10, 10, none⟩ : ProjectRow) ∈
      [(⟨7, "p", none, "active", [], 3, true, 10, 10, none⟩ : ProjectRow)] ∧
    (delete_project [(⟨7, "p", none, "active", [], 3, true, 10, 10, none⟩ :
        ProjectRow)] 7 99).1.length = 1 ∧
    get_project (delete_project [(⟨7, "p", none, "active", [], 3, true, 10, 10,
        none⟩ : ProjectRow)] 7 99).1 7 = none := by
  have h := delete_project_soft_delete_excludes
    [(⟨7, "p", none, "active", [], 3, true, 10, 10, none⟩ : ProjectRow)] 7 99
    ⟨7, "p", none, "active", [], 3, true, 10, 10, none⟩
    (by decide) rfl rfl
  exact ⟨by decide, h.1, h.2.2.1⟩

/-- A partially-given Pydantic field: `unset` when the field is absent from
the input, `null` when it is explicitly given as None, `val v` when it is
explicitly given the value `v`.  `model_dump(exclude_unset=True)` drops
`unset` fields and `exclude_none=True` drops `null` fields. -/
inductive PField (α : Type) where
  | unset
  | null
  | val (v : α)
deriving DecidableEq, Repr

/-- The contribution of one field to `model_dump(exclude_none=True,
exclude_unset=True)` as computed by `dump_and_check_model`
(`src/app/db/models.py` line 28): only an explicitly set, non-None field
survives into the dump. -/
def PField.dump : PField α → Option α
  | .val v => some v
  | _ => none

/-- A row of table `tasks` (the `DbTask` model fields,
`src/app/db/models.py` lines 311-320).  Datetimes are embedded as `Nat`. -/
structure TaskRow where
  id : Nat
  title : String
  description : Option String
  due_date : Option Nat
  is_completed : Bool
  created_at : Nat
  updated_at : Nat
deriving DecidableEq, Repr

/-- `TaskUpdate` (`src/app/tasks/task_schemas.py` lines 14-18): every field
optional, and "not provided" is distinct from "provided as None". -/
structure TaskUpdate where
  title : PField String := .unset
  description : PField String := .unset
  due_date : PField Nat := .unset
  is_completed : PField Bool := .unset
deriving DecidableEq, Repr

/-- `TaskCreate` (`src/app/tasks/task_schemas.py` lines 5-12): same field
set; `title` is mandatory at the schema layer. -/
structure TaskCreate where
  title : PField String := .unset
  description : PField String := .unset
  due_date : PField Nat := .unset
  is_completed : PField Bool := .unset
deriving DecidableEq, Repr

/-- The dictionary produced by `model_dump(exclude_none=True,
exclude_unset=True)` on a task input: `some` marks a key present in the
dump. -/
structure TaskDump where
  title : Option String
  description : Option String
  due_date : Option Nat
  is_completed : Option Bool
deriving DecidableEq, Repr

def taskUpdateDump (u : TaskUpdate) : TaskDump :=
  ⟨u.title.dump, u.description.dump, u.due_date.dump, u.is_completed.dump⟩

def taskCreateDump (t : TaskCreate) : TaskDump :=
  ⟨t.title.dump, t.description.dump, t.due_date.dump, t.is_completed.dump⟩

/-- `if not model_dump:` — the emptiness test of `dump_and_check_model`. -/
def TaskDump.isEmpty (d : TaskDump) : Bool :=
  d.title == none && d.description == none &&
    d.due_date == none && d.is_completed == none

/-- The SET clause built by `DbTask.update` (`src/app/db/models.py` lines
470-476) applied to one row: exactly the keys present in the dump are
written, plus `updated_at` which the method adds to the dump (line 468). -/
def applyTaskUpdate (r : TaskRow) (d : TaskDump) (now : Nat) : TaskRow :=
  { r with
    title := d.title.getD r.title
    description := match d.description with
      | some v => some v
      | none => r.description
    due_date := match d.due_date with
      | some v => some v
      | none => r.due_date
    is_completed := d.is_completed.getD r.is_completed
    updated_at := now }

namespace DbTask

/-- `DbTask.update` (`src/app/db/models.py` lines 450-493):
`dump_and_check_model` raises a 400 on an empty dump before any SQL; then
`UPDATE tasks SET <dump keys> WHERE id = ... RETURNING *`; a null `fetchone`
raises a 500. -/
def update (table : List TaskRow) (task_id : Nat) (u : TaskUpdate)
    (now : Nat) : List TaskRow × Except HttpError TaskRow :=
  if (taskUpdateDump u).isEmpty then
    (table, .error ⟨400, "No data provided."⟩)
  else
    let table' := table.map fun r =>
      if r.id == task_id then applyTaskUpdate r (taskUpdateDump u) now else r
    match table'.find? (fun r => r.id == task_id) with
    | some updated_task => (table', .ok updated_task)
    | none => (table', .error ⟨500, "Failed to update task"⟩)

/-- `DbTask.create` (`src/app/db/models.py` lines 398-448):
`dump_and_check_model` raises a 400 on an empty dump before any SQL; then the
method stamps `created_at`/`updated_at` and runs `INSERT INTO tasks (<dump
keys>) VALUES (...) RETURNING *`.  The serial id the storage engine assigns
is passed in as `new_id`; a dump without `title` would be a storage-level
NOT NULL violation, outside this method. -/
def create (table : List TaskRow) (t : TaskCreate) (now new_id : Nat) :
    List TaskRow × Except HttpError TaskRow :=
  let d := taskCreateDump t
  if d.isEmpty then
    (table, .error ⟨400, "No data provided."⟩)
  else
    let row : TaskRow :=
      { id := new_id
        title := d.title.getD ""
        description := d.description
        due_date := d.due_date
        is_completed := d.is_completed.getD false
        created_at := now
        updated_at := now }
    (table ++ [row], .ok row)

end DbTask

/-- C5 counterexample: updating a task whose stored description is
"keep me" with an input that explicitly sets description to None (and
is_completed to true, so the dump is nonempty) leaves the description
unchanged instead of writing the null: `exclude_none=True` drops the
explicitly-null field from the dump. -/
theorem task_update_explicit_null_not_applied :
    ((DbTask.update [⟨1, "t", some "keep me", none, false, 5, 5⟩] 1
        ⟨.unset, .null, .unset, .val true⟩ 9).2 =
      .ok ⟨1, "t", some "keep me", none, true, 5, 9⟩) ∧
    some "keep me" ≠ (none : Option String) :=
  ⟨rfl, by decide⟩

/-- `UserUpdate` (`src/app/users/user_schemas.py` lines 21-34): the updatable
`DbUser` fields; id, username, registered_at and the relationship aggregates
are excluded from the dump by `Field(exclude=True)`. -/
structure UserUpdate where
  role : PField String := .unset
  profile_img : PField String := .unset
  name : PField String := .unset
  city : PField String := .unset
  country : PField String := .unset
  email_address : PField String := .unset
  is_email_verified : PField Bool := .unset
  is_expert : PField Bool := .unset
  api_key : PField String := .unset
  last_login_at : PField Nat := .unset
deriving DecidableEq, Repr

/-- The keys of `model_dump(exclude_none=True, exclude_unset=True)` on a
`UserUpdate`: the explicitly set, non-None fields, in declaration order. -/
def UserUpdate.dumpKeys (u : UserUpdate) : List String :=
  List.filterMap (fun kv => if kv.2 then some kv.1 else none)
    [("role", u.role.dump.isSome),
     ("profile_img", u.profile_img.dump.isSome),
     ("name", u.name.dump.isSome),
     ("city", u.city.dump.isSome),
     ("country", u.country.dump.isSome),
     ("email_address", u.email_address.dump.isSome),
     ("is_email_verified", u.is_email_verified.dump.isSome),
     ("is_expert", u.is_expert.dump.isSome),
     ("api_key", u.api_key.dump.isSome),
     ("last_login_at", u.last_login_at.dump.isSome)]

/-- The SET clause of `DbUser.update` (`src/app/db/models.py` lines 287-293)
applied to one row: exactly the dump keys are written. -/
def applyUserUpdate (r : UserRow) (u : UserUpdate) : UserRow :=
  { r with
    role := match u.role.dump with | some v => some v | none => r.role
    profile_img := match u.profile_img.dump with
      | some v => some v
      | none => r.profile_img
    name := match u.name.dump with | some v => some v | none => r.name
    city := match u.city.dump with | some v => some v | none => r.city
    country := match u.country.dump with | some v => some v | none => r.country
    email_address := match u.email_address.dump with
      | some v => some v
      | none => r.email_address
    is_email_verified := u.is_email_verified.dump.getD r.is_email_verified
    is_expert := u.is_expert.dump.getD r.is_expert
    api_key := match u.api_key.dump with | some v => some v | none => r.api_key
    last_login_at := match u.last_login_at.dump with
      | some v => some v
      | none => r.last_login_at }

namespace DbUser

/-- `DbUser.update` (`src/app/db/models.py` lines 281-309):
`dump_and_check_model` raises a 400 on an empty dump before any SQL; then
`UPDATE users SET <dump keys> WHERE id = ... RETURNING *`; a null `fetchone`
raises a 500. -/
def update (table : List UserRow) (user_id : Nat) (u : UserUpdate) :
    List UserRow × Except HttpError UserRow :=
  if u.dumpKeys.isEmpty then
    (table, .error ⟨400, "No data provided."⟩)
  else
    let table' := table.map fun r =>
      if r.id == user_id then applyUserUpdate r u else r
    match table'.find? (fun r => r.id == user_id) with
    | some updated_user => (table', .ok updated_user)
    | none => (table', .error ⟨500, "Failed to update user"⟩)

end DbUser

/-- `ProjectUpdate` (`src/app/projects/project_schemas.py` lines 20-25):
all fields optional.  `update_project` calls plain `model_dump()` and keeps
only non-None values, so an absent field and an explicit None coincide here,
and one `Option` per field suffices. -/
structure ProjectUpdate where
  name : Option String := none
  description : Option String := none
  status : Option String := none
  settings : Option (List (String × String)) := none
  is_active : Option Bool := none
deriving DecidableEq, Repr

/-- `if not update_fields:` in `update_project` (line 91). -/
def ProjectUpdate.isEmpty (u : ProjectUpdate) : Bool :=
  u.name == none && u.description == none && u.status == none &&
    u.settings == none && u.is_active == none

/-- The SET clause of `update_project` (lines 96-106) applied to one row:
the non-None fields plus `updated_at = now` (line 94). -/
def applyProjectUpdate (r : ProjectRow) (u : ProjectUpdate) (now : Nat) :
    ProjectRow :=
  { r with
    name := u.name.getD r.name
    description := match u.description with
      | some v => some v
      | none => r.description
    status := u.status.getD r.status
    settings := u.settings.getD r.settings
    is_active := u.is_active.getD r.is_active
    updated_at := now }

/-- `update_project` (`src/app/projects/project_crud.py` lines 82-116): with
no non-None field it performs NO write and returns `get_project` — it never
raises for an empty input; otherwise it runs `UPDATE projects SET ... WHERE
id = %s AND deleted_at IS NULL RETURNING *` and returns the updated row, or
`None` when no live row matched. -/
def update_project (table : List ProjectRow) (project_id : Nat)
    (u : ProjectUpdate) (now : Nat) :
    List ProjectRow × Except HttpError (Option ProjectRow) :=
  if u.isEmpty then
    (table, .ok (get_project table project_id))
  else
    let table' := table.map fun r =>
      if r.id == project_id && r.deleted_at == none then
        applyProjectUpdate r u now
      else r
    (table', .ok (table'.find? fun r => r.id == project_id && r.deleted_at == none))

/-- C6 counterexample: the claim quantifies over every repository, but the
project repository does not reject an empty update: on a table holding one
live project, `update_project` with an all-None input returns the stored
project unchanged with no error of any kind — not a Validation (400) error. -/
theorem update_project_empty_input_no_validation_error :
    (update_project [⟨7, "p", none, "active", [], 3, true, 10, 10, none⟩] 7
        ⟨none, none, none, none, none⟩ 99 =
      ([⟨7, "p", none, "active", [], 3, true, 10, 10, none⟩],
        .ok (some ⟨7, "p", none, "active", [], 3, true, 10, 10, none⟩))) ∧
    ∀ e : HttpError,
      (update_project [⟨7, "p", none, "active", [], 3, true, 10, 10, none⟩] 7
        ⟨none, none, none, none, none⟩ 99).2 ≠ .error e :=
  ⟨rfl, fun _ h => Except.noConfusion h⟩

/-- C6 (amended): the task and user repositories reject an empty input with a
Validation (400) error before any storage write — in particular creating a
task with an empty body fails with the 400 and writes nothing — but the
project repository does not: `update_project` with an empty input performs no
write and returns the current project without error. -/
theorem empty_write_rejected_except_projects
    (ttable : List TaskRow) (utable : List UserRow) (ptable : List ProjectRow)
    (task_id user_id project_id now new_id : Nat)
    (tu : TaskUpdate) (tc : TaskCreate) (uu : UserUpdate) (pu : ProjectUpdate)
    (htu : (taskUpdateDump tu).isEmpty = true)
    (htc : (taskCreateDump tc).isEmpty = true)
    (huu : uu.dumpKeys = [])
    (hpu : pu.isEmpty = true) :
    DbTask.update ttable task_id tu now =
      (ttable, .error ⟨400, "No data provided."⟩) ∧
    DbTask.create ttable tc now new_id =
      (ttable, .error ⟨400, "No data provided."⟩) ∧
    DbUser.update utable user_id uu =
      (utable, .error ⟨400, "No data provided."⟩) ∧
    update_project ptable project_id pu now =
      (ptable, .ok (get_project ptable project_id)) := by
  refine ⟨?_, ?_, ?_, ?_⟩
  · simp [DbTask.update, htu]
  · simp [DbTask.create, htc]
  · simp [DbUser.update, huu]
  · simp [update_project, hpu]

/-- Witness for C6 at concrete empty inputs over singleton tables. -/
theorem empty_write_rejected_except_projects_witness :
    ((taskUpdateDump {}).isEmpty = true ∧ (taskCreateDump {}).isEmpty = true ∧
      UserUpdate.dumpKeys {} = [] ∧ (ProjectUpdate.isEmpty {}) = true) ∧
    (DbTask.update [⟨1, "t", none, none, false, 5, 5⟩] 1 {} 9 =
      ([⟨1, "t", none, none, false, 5, 5⟩], .error ⟨400, "No data provided."⟩)) ∧
    (DbTask.create [⟨1, "t", none, none, false, 5, 5⟩] {} 9 2 =
      ([⟨1, "t", none, none, false, 5, 5⟩], .error ⟨400, "No data provided."⟩)) ∧
    (DbUser.update [{ id := 1, username := "u" }] 1 {} =
      ([{ id := 1, username := "u" }], .error ⟨400, "No data provided."⟩)) ∧
    (update_project [⟨7, "p", none, "active", [], 3, true, 10, 10, none⟩] 7 {} 99 =
      ([⟨7, "p", none, "active", [], 3, true, 10, 10, none⟩],
        .ok (some ⟨7, "p", none, "active", [], 3, true, 10, 10, none⟩))) := by
  have h := empty_write_rejected_except_projects
    [⟨1, "t", none, none, false, 5, 5⟩] [{ id := 1, username := "u" }]
    [⟨7, "p", none, "active", [], 3, true, 10, 10, none⟩]
    1 1 7 9 2 {} {} {} {} (by decide) (by decide) (by decide) (by decide)
  exact ⟨⟨by decide, by decide, by decide, by decide⟩,
    h.1, h.2.1, h.2.2.1, by simpa using h.2.2.2⟩

namespace DbTask

/-- `DbTask.delete` (`src/app/db/models.py` lines 495-513): `DELETE FROM
tasks WHERE id = %(task_id)s`, returning `cur.rowcount > 0` — whether a row
was actually removed. -/
def delete (table : List TaskRow) (task_id : Nat) : List TaskRow × Bool :=
  (table.filter fun r => !(r.id == task_id),
   table.any fun r => r.id == task_id)

end DbTask

/-- The try-block of `delete_task` (`src/app/tasks/task_crud.py` lines
107-113): run the delete, and raise `HTTPException(404, ...)` when nothing
was removed. -/
def delete_task_try (table : List TaskRow) (task_id : Nat) :
    List TaskRow × Except HttpError Unit :=
  let out := DbTask.delete table task_id
  if out.2 then (out.1, .ok ())
  else
    (out.1, .error ⟨404, "Task with id " ++ toString task_id ++ " not found"⟩)

/-- `delete_task` (`src/app/tasks/task_crud.py` lines 105-119): the handler
`except Exception as e` catches every exception from the try block —
including the `HTTPException(404)` raised there, because `HTTPException`
subclasses `Exception` — and re-raises `HTTPException(500, detail=str(e))`,
where `str` of an HTTPException renders as "<status>: <detail>". -/
def delete_task (table : List TaskRow) (task_id : Nat) :
    List TaskRow × Except HttpError Unit :=
  match delete_task_try table task_id with
  | (table', .ok ()) => (table', .ok ())
  | (table', .error e) =>
    (table', .error ⟨500, toString e.status ++ ": " ++ e.detail⟩)

/-- C7: evaluating the code at the failing input — deleting task id 999999
when no such row exists.  `DbTask.delete` does report that no row was
removed, and the try block does raise the 404, but the blanket
`except Exception` converts it, so the caller receives a 500 internal error
rather than the NotFound the claim describes. -/
theorem delete_task_missing_row_reports_500 :
    (DbTask.delete [] 999999).2 = false ∧
    delete_task_try [] 999999 =
      ([], .error ⟨404, "Task with id 999999 not found"⟩) ∧
    delete_task [] 999999 =
      ([], .error ⟨500, "404: Task with id 999999 not found"⟩) :=
  ⟨rfl, rfl, rfl⟩

/-- The fixed set of updatable user columns: the non-excluded field names of
the `UserUpdate` schema (`src/app/users/user_schemas.py` lines 21-34). -/
def userUpdateFields : List String :=
  ["role", "profile_img", "name", "city", "country", "email_address",
   "is_email_verified", "is_expert", "api_key", "last_login_at"]

/-- The SQL text of `DbUser.update` (`src/app/db/models.py` lines 287-293):
the SET list names only the dump keys, each value referenced through a named
placeholder, so the text depends on WHICH fields are present and never on
their values. -/
def dbUserUpdateQuery (u : UserUpdate) : String :=
  "UPDATE users SET " ++
    String.intercalate ", "
      (u.dumpKeys.map fun k => k ++ " = %(" ++ k ++ ")s") ++
    " WHERE id = %(user_id)s RETURNING *;"

/-- The SQL text and the parameter list that `DbUserRole.all`
(`src/app/db/models.py` lines 94-115) hands to `cur.execute`: the filter is
built with an f-string that interpolates `project_id` into the query text
(line 104), and `execute` is called WITHOUT the params dictionary (lines
112-114), so nothing at all is bound.  `if project_id:` is Python
truthiness, so None and 0 both add no filter. -/
def dbUserRoleAllQuery (project_id : Option Nat) :
    String × List (String × Nat) :=
  let filters := match project_id with
    | some pid => if pid != 0 then ["project_id = " ++ toString pid] else []
    | none => []
  ("SELECT * FROM user_roles " ++
     (if filters.isEmpty then ""
      else "WHERE " ++ String.intercalate " AND " filters),
   [])

/-- C8 counterexample: in `DbUserRole.all` the caller-supplied value is
interpolated, not bound — at project_id 5 the query TEXT embeds the value
(and so differs from the text at 7), while the bound-parameter list handed
to execute is empty. -/
theorem dbUserRole_all_interpolates_value :
    (dbUserRoleAllQuery (some 5)).1 =
      "SELECT * FROM user_roles WHERE project_id = 5" ∧
    (dbUserRoleAllQuery (some 5)).1 ≠ (dbUserRoleAllQuery (some 7)).1 ∧
    (dbUserRoleAllQuery (some 5)).2 = [] :=
  ⟨rfl, by decide, rfl⟩

/-- Keys produced by a filterMap over (key, keep) pairs all come from the
keys of the pair list. -/
theorem mem_filterMap_if_keys (l : List (String × Bool)) (k : String)
    (hk : k ∈ l.filterMap fun kv => if kv.2 then some kv.1 else none) :
    k ∈ l.map Prod.fst := by
  simp only [List.mem_filterMap] at hk
  rcases hk with ⟨⟨k', b⟩, hmem, hif⟩
  cases b
  · simp at hif
  · simp only [if_pos] at hif
    cases hif
    exact List.mem_map_of_mem Prod.fst hmem

/-- C8 (amended): dynamic column identifiers in the update query builder are
drawn only from the fixed `UserUpdate` field list, and the query text is a
function of which fields are present, never of the caller-supplied values
(values travel only as bound parameters) — EXCEPT in `DbUserRole.all`, which
interpolates the integer `project_id` into the query text and binds nothing,
as the counterexample exhibits. -/
theorem update_query_identifiers_allowlisted (u : UserUpdate)
    (pid : Option Nat) :
    (∀ k ∈ u.dumpKeys, k ∈ userUpdateFields) ∧
    (∀ u' : UserUpdate, u'.dumpKeys = u.dumpKeys →
      dbUserUpdateQuery u' = dbUserUpdateQuery u) ∧
    (dbUserRoleAllQuery pid).2 = [] := by
  refine ⟨?_, ?_, rfl⟩
  · intro k hk
    have h := mem_filterMap_if_keys _ k hk
    simpa [userUpdateFields] using h
  · intro u' h
    simp [dbUserUpdateQuery, h]

/-- Witness for C8: a concrete update setting role and name draws its keys
from the allow-list, and changing only the VALUES (ADMIN/x to MAPPER/y)
leaves the query text identical. -/
theorem update_query_identifiers_allowlisted_witness :
    (∀ k ∈ UserUpdate.dumpKeys { role := .val "ADMIN", name := .val "x" },
      k ∈ userUpdateFields) ∧
    (UserUpdate.dumpKeys { role := .val "MAPPER", name := .val "y" } =
        UserUpdate.dumpKeys { role := .val "ADMIN", name := .val "x" } ∧
      dbUserUpdateQuery { role := .val "MAPPER", name := .val "y" } =
        dbUserUpdateQuery { role := .val "ADMIN", name := .val "x" }) ∧
    (dbUserRoleAllQuery (some 5)).2 = [] := by
  have h := update_query_identifiers_allowlisted
    { role := .val "ADMIN", name := .val "x" } (some 5)
  exact ⟨h.1,
    ⟨by decide, h.2.1 { role := .val "MAPPER", name := .val "y" } (by decide)⟩,
    h.2.2⟩

/-- Python truthiness of an `Optional[int]`: None and 0 are both falsy —
this is the `if skip and limit` test of `DbTask.all`/`DbUser.all`. -/
def intTruthy : Option Nat → Bool
  | none => false
  | some n => n != 0

/-- Python truthiness of an `Optional[str]`: None and "" are both falsy —
the `if search:` test. -/
def searchTruthy : Option String → Bool
  | none => false
  | some s => !s.isEmpty

/-- The WHERE filter of `DbTask.all` (lines 373-377): `(title ILIKE
%(search)s OR description ILIKE %(search)s)` with wildcards around the term,
applied only when the search term is truthy. -/
def taskMatches (search : Option String) (r : TaskRow) : Bool :=
  match search with
  | none => true
  | some s =>
    if s.isEmpty then true
    else ilikeContains (some r.title) s || ilikeContains r.description s

/-- The WHERE filter of `DbUser.all` (lines 192-194): `username ILIKE
%(search)s` with wildcards, applied only when the term is truthy. -/
def userMatches (search : Option String) (r : UserRow) : Bool :=
  match search with
  | none => true
  | some s => if s.isEmpty then true else ilikeContains (some r.username) s

/-- `ORDER BY created_at DESC` over task rows. -/
def orderTasksByCreatedDesc (l : List TaskRow) : List TaskRow :=
  List.insertionSort (fun a b => b.created_at ≤ a.created_at) l

/-- Sort comparison for `ORDER BY registered_at DESC` (Postgres places NULLs
first under DESC: a NULL key ranks above every value). -/
def regAtDescBefore (a b : UserRow) : Bool :=
  match a.registered_at, b.registered_at with
  | none, _ => true
  | some _, none => false
  | some x, some y => y ≤ x

/-- `ORDER BY registered_at DESC` over user rows. -/
def orderUsersByRegisteredDesc (l : List UserRow) : List UserRow :=
  List.insertionSort (fun a b => regAtDescBefore a b = true) l

namespace DbTask

/-- `DbTask.all` (`src/app/db/models.py` lines 351-396): filter by the
search term, order by created_at descending, and slice by OFFSET/LIMIT only
when `skip and limit` is truthy — i.e. both supplied AND nonzero; in every
other case the full filtered set is returned. -/
def all (table : List TaskRow) (skip limit : Option Nat)
    (search : Option String) : List TaskRow :=
  let filtered := orderTasksByCreatedDesc (table.filter (taskMatches search))
  if intTruthy skip && intTruthy limit then
    (filtered.drop (skip.getD 0)).take (limit.getD 0)
  else filtered

end DbTask

namespace DbUser

/-- `DbUser.all` (`src/app/db/models.py` lines 180-215): same shape as
`DbTask.all`, over username, ordered by registered_at descending. -/
def all (table : List UserRow) (skip limit : Option Nat)
    (search : Option String) : List UserRow :=
  let filtered := orderUsersByRegisteredDesc (table.filter (userMatches search))
  if intTruthy skip && intTruthy limit then
    (filtered.drop (skip.getD 0)).take (limit.getD 0)
  else filtered

end DbUser

/-- The query text of `DbTask.all` before the pagination suffix (lines
379-383). -/
def dbTaskAllBase (search : Option String) : String :=
  "SELECT * FROM tasks " ++
    (if searchTruthy search then
      "WHERE (title ILIKE %(search)s OR description ILIKE %(search)s) "
     else "") ++
    "ORDER BY created_at DESC"

/-- The full query text of `DbTask.all` (lines 384-391): the source appends
`OFFSET %(offset)s LIMIT %(limit)s;` when `skip and limit` is truthy and a
bare `;` otherwise. -/
def dbTaskAllQuery (skip limit : Option Nat) (search : Option String) :
    String :=
  dbTaskAllBase search ++
    (if intTruthy skip && intTruthy limit then
      " OFFSET %(offset)s LIMIT %(limit)s;"
     else ";")

/-- C9 counterexample: both skip and limit ARE supplied — skip = 0 (the
first page, exactly what `get_paginated_tasks` passes for page 1) and
limit = 2 — yet over a three-task table the query returns all three rows,
not at most limit, and the built query text carries no OFFSET/LIMIT suffix:
`if skip and limit` treats the supplied 0 as "omitted". -/
theorem dbTask_all_skip_zero_disables_pagination :
    (DbTask.all
        [⟨1, "a", none, none, false, 3, 3⟩, ⟨2, "b", none, none, false, 2, 2⟩,
         ⟨3, "c", none, none, false, 1, 1⟩] (some 0) (some 2) none).length = 3 ∧
    ¬ (DbTask.all
        [⟨1, "a", none, none, false, 3, 3⟩, ⟨2, "b", none, none, false, 2, 2⟩,
         ⟨3, "c", none, none, false, 1, 1⟩] (some 0) (some 2) none).length ≤ 2 ∧
    dbTaskAllQuery (some 0) (some 2) none =
      "SELECT * FROM tasks ORDER BY created_at DESC;" :=
  ⟨by decide, by decide, rfl⟩

/-- The query text of `DbUser.all` before the pagination suffix
(`src/app/db/models.py` lines 196-200). -/
def dbUserAllBase (search : Option String) : String :=
  "SELECT * FROM users " ++
    (if searchTruthy search then "WHERE username ILIKE %(search)s " else "") ++
    "ORDER BY registered_at DESC"

/-- The full query text of `DbUser.all` (lines 201-208): the source appends
`OFFSET %(offset)s LIMIT %(limit)s;` when `skip and limit` is truthy and a
bare `;` otherwise — the same rule as `DbTask.all`. -/
def dbUserAllQuery (skip limit : Option Nat) (search : Option String) :
    String :=
  dbUserAllBase search ++
    (if intTruthy skip && intTruthy limit then
      " OFFSET %(offset)s LIMIT %(limit)s;"
     else ";")

/-- C9 (amended): for both list builders, `DbTask.all` and `DbUser.all`, the
OFFSET/LIMIT clauses are appended, and the result sliced, iff both skip and
limit are supplied AND nonzero (Python truthiness); when either is omitted,
None, or ZERO — including skip = 0 for the first page — pagination is
disabled and the full filtered set is returned; when both are nonzero the
result is bounded by limit. -/
theorem list_query_pagination_iff_truthy
    (ttable : List TaskRow) (utable : List UserRow) (s l : Nat)
    (skip limit : Option Nat) (search : Option String)
    (hs : 0 < s) (hl : 0 < l) :
    DbTask.all ttable (some s) (some l) search =
      ((orderTasksByCreatedDesc (ttable.filter (taskMatches search))).drop
        s).take l ∧
    (DbTask.all ttable (some s) (some l) search).length ≤ l ∧
    DbUser.all utable (some s) (some l) search =
      ((orderUsersByRegisteredDesc (utable.filter (userMatches search))).drop
        s).take l ∧
    (DbUser.all utable (some s) (some l) search).length ≤ l ∧
    DbTask.all ttable none limit search =
      orderTasksByCreatedDesc (ttable.filter (taskMatches search)) ∧
    DbTask.all ttable skip none search =
      orderTasksByCreatedDesc (ttable.filter (taskMatches search)) ∧
    DbTask.all ttable (some 0) (some l) search =
      orderTasksByCreatedDesc (ttable.filter (taskMatches search)) ∧
    DbTask.all ttable (some s) (some 0) search =
      orderTasksByCreatedDesc (ttable.filter (taskMatches search)) ∧
    DbUser.all utable none limit search =
      orderUsersByRegisteredDesc (utable.filter (userMatches search)) ∧
    DbUser.all utable skip none search =
      orderUsersByRegisteredDesc (utable.filter (userMatches search)) ∧
    DbUser.all utable (some 0) (some l) search =
      orderUsersByRegisteredDesc (utable.filter (userMatches search)) ∧
    DbUser.all utable (some s) (some 0) search =
      orderUsersByRegisteredDesc (utable.filter (userMatches search)) ∧
    dbTaskAllQuery (some s) (some l) search =
      dbTaskAllBase search ++ " OFFSET %(offset)s LIMIT %(limit)s;" ∧
    dbTaskAllQuery (some 0) (some l) search = dbTaskAllBase search ++ ";" ∧
    dbTaskAllQuery (some s) (some 0) search = dbTaskAllBase search ++ ";" ∧
    dbUserAllQuery (some s) (some l) search =
      dbUserAllBase search ++ " OFFSET %(offset)s LIMIT %(limit)s;" ∧
    dbUserAllQuery (some 0) (some l) search = dbUserAllBase search ++ ";" ∧
    dbUserAllQuery (some s) (some 0) search = dbUserAllBase search ++ ";" := by
  have hs' : (s != 0) = true := by simpa using Nat.pos_iff_ne_zero.mp hs
  have hl' : (l != 0) = true := by simpa using Nat.pos_iff_ne_zero.mp hl
  refine ⟨?_, ?_, ?_, ?_, ?_, ?_, ?_, ?_, ?_, ?_, ?_, ?_, ?_, ?_, ?_, ?_,
    ?_, ?_⟩
  · simp [DbTask.all, intTruthy, hs', hl']
  · simp only [DbTask.all, intTruthy, hs', hl', Bool.and_self, if_pos]
    calc (((orderTasksByCreatedDesc (ttable.filter (taskMatches search))).drop
            ((some s).getD 0)).take ((some l).getD 0)).length
        ≤ (some l).getD 0 := by
          rw [List.length_take]
          exact Nat.min_le_left _ _
      _ = l := rfl
  · simp [DbUser.all, intTruthy, hs', hl']
  · simp only [DbUser.all, intTruthy, hs', hl', Bool.and_self, if_pos]
    calc (((orderUsersByRegisteredDesc
              (utable.filter (userMatches search))).drop
            ((some s).getD 0)).take ((some l).getD 0)).length
        ≤ (some l).getD 0 := by
          rw [List.length_take]
          exact Nat.min_le_left _ _
      _ = l := rfl
  · cases limit <;> simp [DbTask.all, intTruthy]
  · cases skip <;> simp [DbTask.all, intTruthy]
  · simp [DbTask.all, intTruthy]
  · simp [DbTask.all, intTruthy]
  · cases limit <;> simp [DbUser.all, intTruthy]
  · cases skip <;> simp [DbUser.all, intTruthy]
  · simp [DbUser.all, intTruthy]
  · simp [DbUser.all, intTruthy]
  · simp [dbTaskAllQuery, intTruthy, hs', hl']
  · simp [dbTaskAllQuery, intTruthy]
  · simp [dbTaskAllQuery, intTruthy]
  · simp [dbUserAllQuery, intTruthy, hs', hl']
  · simp [dbUserAllQuery, intTruthy]
  · simp [dbUserAllQuery, intTruthy]

/-- Witness for C9 at skip = 1, limit = 2 (sliced, suffix appended) and
skip = 0, limit = 2 (pagination disabled), for both builders. -/
theorem list_query_pagination_iff_truthy_witness :
    0 < 1 ∧ 0 < 2 ∧
    DbTask.all [⟨1, "a", none, none, false, 3, 3⟩] (some 1) (some 2) none =
      ((orderTasksByCreatedDesc
        ([⟨1, "a", none, none, false, 3, 3⟩].filter (taskMatches none))).drop
          1).take 2 ∧
    DbUser.all [{ id := 1, username := "u" }] (some 1) (some 2) none =
      ((orderUsersByRegisteredDesc
        ([{ id := 1, username := "u" }].filter (userMatches none))).drop
          1).take 2 ∧
    DbUser.all [{ id := 1, username := "u" }] (some 0) (some 2) none =
      orderUsersByRegisteredDesc
        ([{ id := 1, username := "u" }].filter (userMatches none)) ∧
    dbTaskAllQuery (some 1) (some 2) none =
      dbTaskAllBase none ++ " OFFSET %(offset)s LIMIT %(limit)s;" ∧
    dbUserAllQuery (some 0) (some 2) none = dbUserAllBase none ++ ";" := by
  have h := list_query_pagination_iff_truthy
    [⟨1, "a", none, none, false, 3, 3⟩] [{ id := 1, username := "u" }] 1 2
    none none none (by decide) (by decide)
  obtain ⟨c1, c2, c3, c4, c5, c6, c7, c8, c9, c10, c11, c12, c13, c14, c15,
    c16, c17, c18⟩ := h
  exact ⟨by decide, by decide, c1, c3, c11, c13, c17⟩

/-- The dictionary `{"results": ..., "pagination": ...}` returned by
`get_paginated_tasks` (`src/app/tasks/task_crud.py` lines 38 and 41):
`pagination` is a metadata object on success and `None` on failure. -/
structure PaginatedTasks where
  results : List TaskRow
  pagination : Option PaginationInfo
deriving DecidableEq, Repr

/-- The try-block of `get_paginated_tasks` (lines 24-38): fetch the page
slice via `DbTask.all` with skip = (page-1)*results_per_page and
limit = results_per_page, count the unpaginated fetch, and build the
pagination metadata. -/
def get_paginated_tasks_try (table : List TaskRow)
    (page results_per_page : Nat) (search : Option String) : PaginatedTasks :=
  let tasks := DbTask.all table (some ((page - 1) * results_per_page))
    (some results_per_page) search
  let total_tasks := (DbTask.all table none none search).length
  { results := tasks
    pagination :=
      some (get_pagination page tasks.length results_per_page total_tasks) }

/-- `get_paginated_tasks` (`src/app/tasks/task_crud.py` lines 17-41): any
exception raised while fetching or counting — injected here as `err`, the
storage fault — is swallowed by `except Exception`, which logs and returns
`{"results": [], "pagination": None}` instead of propagating. -/
def get_paginated_tasks (table : List TaskRow) (err : Option String)
    (page results_per_page : Nat) (search : Option String) : PaginatedTasks :=
  match err with
  | some _ => { results := [], pagination := none }
  | none => get_paginated_tasks_try table page results_per_page search

/-- C10 counterexample: a storage failure is NOT indistinguishable from an
empty result set — the failure returns pagination None while a successful
listing over an empty table returns pagination metadata, so the two outputs
differ (only) in the pagination field. -/
theorem get_paginated_tasks_failure_vs_empty :
    get_paginated_tasks [] (some "connection lost") 1 10 none =
      ⟨[], none⟩ ∧
    get_paginated_tasks [] none 1 10 none =
      ⟨[], some (get_pagination 1 0 10 0)⟩ ∧
    get_paginated_tasks [] (some "connection lost") 1 10 none ≠
      get_paginated_tasks [] none 1 10 none :=
  ⟨rfl, rfl, by decide⟩

/-- C10 (amended): whatever exception the fetch or count raises,
`get_paginated_tasks` does not propagate it: it returns `{"results": [],
"pagination": None}`, so no error status reaches the caller of the task-list
endpoint; the failure shares the empty results list with an empty result set
but remains distinguishable by its None pagination, since every successful
call carries pagination metadata. -/
theorem get_paginated_tasks_swallows_errors (table : List TaskRow)
    (e : String) (page results_per_page : Nat) (search : Option String) :
    get_paginated_tasks table (some e) page results_per_page search =
      ⟨[], none⟩ ∧
    (get_paginated_tasks table none page results_per_page search).pagination ≠
      none := by
  refine ⟨rfl, ?_⟩
  simp [get_paginated_tasks, get_paginated_tasks_try]

/-- C5 (amended): for every entity update — tasks, users and projects — only
the fields explicitly present AND non-null in the partial input are written:
absent fields and explicitly-null fields are left unchanged (for tasks and
users `model_dump(exclude_none=True, exclude_unset=True)` drops explicit
nulls along with unset fields; for projects plain `model_dump()` filtered on
`is not None` makes absent and explicit-null coincide), present non-null
fields are written, the task and project `updated_at` is set to the update
time, keys and creation stamps are untouched, and the updated row is
returned. -/
theorem entity_update_frame
    (ttable : List TaskRow) (utable : List UserRow) (ptable : List ProjectRow)
    (task_id user_id project_id now : Nat)
    (tu : TaskUpdate) (uu : UserUpdate) (pu : ProjectUpdate)
    (tr : TaskRow) (ur : UserRow) (pr : ProjectRow)
    (htfind : ttable.find? (fun q => q.id == task_id) = some tr)
    (htne : (taskUpdateDump tu).isEmpty = false)
    (hufind : utable.find? (fun q => q.id == user_id) = some ur)
    (hune : uu.dumpKeys.isEmpty = false)
    (hpfind : ptable.find?
      (fun q => q.id == project_id && q.deleted_at == none) = some pr)
    (hpne : pu.isEmpty = false) :
    ((DbTask.update ttable task_id tu now).2 =
        .ok (applyTaskUpdate tr (taskUpdateDump tu) now) ∧
      ((taskUpdateDump tu).title = none →
        (applyTaskUpdate tr (taskUpdateDump tu) now).title = tr.title) ∧
      ((taskUpdateDump tu).description = none →
        (applyTaskUpdate tr (taskUpdateDump tu) now).description =
          tr.description) ∧
      ((taskUpdateDump tu).due_date = none →
        (applyTaskUpdate tr (taskUpdateDump tu) now).due_date = tr.due_date) ∧
      ((taskUpdateDump tu).is_completed = none →
        (applyTaskUpdate tr (taskUpdateDump tu) now).is_completed =
          tr.is_completed) ∧
      (∀ v, (taskUpdateDump tu).title = some v →
        (applyTaskUpdate tr (taskUpdateDump tu) now).title = v) ∧
      (∀ v, (taskUpdateDump tu).description = some v →
        (applyTaskUpdate tr (taskUpdateDump tu) now).description = some v) ∧
      (∀ v, (taskUpdateDump tu).due_date = some v →
        (applyTaskUpdate tr (taskUpdateDump tu) now).due_date = some v) ∧
      (∀ v, (taskUpdateDump tu).is_completed = some v →
        (applyTaskUpdate tr (taskUpdateDump tu) now).is_completed = v) ∧
      (applyTaskUpdate tr (taskUpdateDump tu) now).updated_at = now ∧
      (applyTaskUpdate tr (taskUpdateDump tu) now).id = tr.id ∧
      (applyTaskUpdate tr (taskUpdateDump tu) now).created_at =
        tr.created_at) ∧
    ((DbUser.update utable user_id uu).2 = .ok (applyUserUpdate ur uu) ∧
      (uu.role.dump = none → (applyUserUpdate ur uu).role = ur.role) ∧
      (uu.profile_img.dump = none →
        (applyUserUpdate ur uu).profile_img = ur.profile_img) ∧
      (uu.name.dump = none → (applyUserUpdate ur uu).name = ur.name) ∧
      (uu.city.dump = none → (applyUserUpdate ur uu).city = ur.city) ∧
      (uu.country.dump = none → (applyUserUpdate ur uu).country = ur.country) ∧
      (uu.email_address.dump = none →
        (applyUserUpdate ur uu).email_address = ur.email_address) ∧
      (uu.is_email_verified.dump = none →
        (applyUserUpdate ur uu).is_email_verified = ur.is_email_verified) ∧
      (uu.is_expert.dump = none →
        (applyUserUpdate ur uu).is_expert = ur.is_expert) ∧
      (uu.api_key.dump = none → (applyUserUpdate ur uu).api_key = ur.api_key) ∧
      (uu.last_login_at.dump = none →
        (applyUserUpdate ur uu).last_login_at = ur.last_login_at) ∧
      (∀ v, uu.role.dump = some v → (applyUserUpdate ur uu).role = some v) ∧
      (∀ v, uu.profile_img.dump = some v →
        (applyUserUpdate ur uu).profile_img = some v) ∧
      (∀ v, uu.name.dump = some v → (applyUserUpdate ur uu).name = some v) ∧
      (∀ v, uu.city.dump = some v → (applyUserUpdate ur uu).city = some v) ∧
      (∀ v, uu.country.dump = some v →
        (applyUserUpdate ur uu).country = some v) ∧
      (∀ v, uu.email_address.dump = some v →
        (applyUserUpdate ur uu).email_address = some v) ∧
      (∀ v, uu.is_email_verified.dump = some v →
        (applyUserUpdate ur uu).is_email_verified = v) ∧
      (∀ v, uu.is_expert.dump = some v →
        (applyUserUpdate ur uu).is_expert = v) ∧
      (∀ v, uu.api_key.dump = some v →
        (applyUserUpdate ur uu).api_key = some v) ∧
      (∀ v, uu.last_login_at.dump = some v →
        (applyUserUpdate ur uu).last_login_at = some v) ∧
      (applyUserUpdate ur uu).id = ur.id ∧
      (applyUserUpdate ur uu).username = ur.username ∧
      (applyUserUpdate ur uu).registered_at = ur.registered_at) ∧
    ((update_project ptable project_id pu now).2 =
        .ok (some (applyProjectUpdate pr pu now)) ∧
      (pu.name = none → (applyProjectUpdate pr pu now).name = pr.name) ∧
      (pu.description = none →
        (applyProjectUpdate pr pu now).description = pr.description) ∧
      (pu.status = none → (applyProjectUpdate pr pu now).status = pr.status) ∧
      (pu.settings = none →
        (applyProjectUpdate pr pu now).settings = pr.settings) ∧
      (pu.is_active = none →
        (applyProjectUpdate pr pu now).is_active = pr.is_active) ∧
      (∀ v, pu.name = some v → (applyProjectUpdate pr pu now).name = v) ∧
      (∀ v, pu.description = some v →
        (applyProjectUpdate pr pu now).description = some v) ∧
      (∀ v, pu.status = some v → (applyProjectUpdate pr pu now).status = v) ∧
      (∀ v, pu.settings = some v →
        (applyProjectUpdate pr pu now).settings = v) ∧
      (∀ v, pu.is_active = some v →
        (applyProjectUpdate pr pu now).is_active = v) ∧
      (applyProjectUpdate pr pu now).updated_at = now ∧
      (applyProjectUpdate pr pu now).id = pr.id ∧
      (applyProjectUpdate pr pu now).owner_id = pr.owner_id ∧
      (applyProjectUpdate pr pu now).created_at = pr.created_at ∧
      (applyProjectUpdate pr pu now).deleted_at = pr.deleted_at) := by
  refine ⟨?_, ?_, ?_⟩
  · refine ⟨?_, ?_, ?_, ?_, ?_, ?_, ?_, ?_, ?_, rfl, rfl, rfl⟩
    · simp only [DbTask.update, htne, Bool.false_eq_true, if_false]
      have hcomm := find?_map_update ttable (fun q => q.id == task_id)
        (fun q => applyTaskUpdate q (taskUpdateDump tu) now)
        (by intro a ha; simpa [applyTaskUpdate] using ha)
      rw [hcomm, htfind]
      rfl
    · intro h; simp [applyTaskUpdate, h]
    · intro h; simp [applyTaskUpdate, h]
    · intro h; simp [applyTaskUpdate, h]
    · intro h; simp [applyTaskUpdate, h]
    · intro v h; simp [applyTaskUpdate, h]
    · intro v h; simp [applyTaskUpdate, h]
    · intro v h; simp [applyTaskUpdate, h]
    · intro v h; simp [applyTaskUpdate, h]
  · refine ⟨?_, ?_, ?_, ?_, ?_, ?_, ?_, ?_, ?_, ?_, ?_, ?_, ?_, ?_, ?_, ?_,
      ?_, ?_, ?_, ?_, ?_, rfl, rfl, rfl⟩
    · simp only [DbUser.update, hune, Bool.false_eq_true, if_false]
      have hcomm := find?_map_update utable (fun q => q.id == user_id)
        (fun q => applyUserUpdate q uu)
        (by intro a ha; simpa [applyUserUpdate] using ha)
      rw [hcomm, hufind]
      rfl
    · intro h; simp [applyUserUpdate, h]
    · intro h; simp [applyUserUpdate, h]
    · intro h; simp [applyUserUpdate, h]
    · intro h; simp [applyUserUpdate, h]
    · intro h; simp [applyUserUpdate, h]
    · intro h; simp [applyUserUpdate, h]
    · intro h; simp [applyUserUpdate, h]
    · intro h; simp [applyUserUpdate, h]
    · intro h; simp [applyUserUpdate, h]
    · intro h; simp [applyUserUpdate, h]
    · intro v h; simp [applyUserUpdate, h]
    · intro v h; simp [applyUserUpdate, h]
    · intro v h; simp [applyUserUpdate, h]
    · intro v h; simp [applyUserUpdate, h]
    · intro v h; simp [applyUserUpdate, h]
    · intro v h; simp [applyUserUpdate, h]
    · intro v h; simp [applyUserUpdate, h]
    · intro v h; simp [applyUserUpdate, h]
    · intro v h; simp [applyUserUpdate, h]
    · intro v h; simp [applyUserUpdate, h]
  · refine ⟨?_, ?_, ?_, ?_, ?_, ?_, ?_, ?_, ?_, ?_, ?_, rfl, rfl, rfl, rfl,
      rfl⟩
    · simp only [update_project, hpne, Bool.false_eq_true, if_false]
      have hcomm := find?_map_update ptable
        (fun q => q.id == project_id && q.deleted_at == none)
        (fun q => applyProjectUpdate q pu now)
        (by intro a ha; simpa [applyProjectUpdate] using ha)
      rw [hcomm, hpfind]
      rfl
    · intro h; simp [applyProjectUpdate, h]
    · intro h; simp [applyProjectUpdate, h]
    · intro h; simp [applyProjectUpdate, h]
    · intro h; simp [applyProjectUpdate, h]
    · intro h; simp [applyProjectUpdate, h]
    · intro v h; simp [applyProjectUpdate, h]
    · intro v h; simp [applyProjectUpdate, h]
    · intro v h; simp [applyProjectUpdate, h]
    · intro v h; simp [applyProjectUpdate, h]
    · intro v h; simp [applyProjectUpdate, h]

/-- Witness for C5: a task updated with only `{is_completed: true}` (title,
description and due_date unchanged, updated_at advanced to 9), a user updated
with only `{name: "x"}`, and a live project updated with only
`{status: "done"}`, each returning the row with exactly that field written. -/
theorem entity_update_frame_witness :
    (([(⟨1, "t", some "d", some 3, false, 5, 5⟩ : TaskRow)].find?
        (fun q => q.id == 1) = some ⟨1, "t", some "d", some 3, false, 5, 5⟩) ∧
      (taskUpdateDump ⟨.unset, .unset, .unset, .val true⟩).isEmpty = false ∧
      ([({ id := 1, username := "u" } : UserRow)].find?
        (fun q => q.id == 1) = some { id := 1, username := "u" }) ∧
      (UserUpdate.dumpKeys { name := .val "x" }).isEmpty = false ∧
      ([(⟨7, "p", none, "active", [], 3, true, 10, 10, none⟩ :
          ProjectRow)].find? (fun q => q.id == 7 && q.deleted_at == none) =
        some ⟨7, "p", none, "active", [], 3, true, 10, 10, none⟩) ∧
      ProjectUpdate.isEmpty { status := some "done" } = false) ∧
    (DbTask.update [⟨1, "t", some "d", some 3, false, 5, 5⟩] 1
        ⟨.unset, .unset, .unset, .val true⟩ 9).2 =
      .ok (applyTaskUpdate ⟨1, "t", some "d", some 3, false, 5, 5⟩
        (taskUpdateDump ⟨.unset, .unset, .unset, .val true⟩) 9) ∧
    (DbUser.update [{ id := 1, username := "u" }] 1 { name := .val "x" }).2 =
      .ok (applyUserUpdate { id := 1, username := "u" } { name := .val "x" }) ∧
    (update_project [⟨7, "p", none, "active", [], 3, true, 10, 10, none⟩] 7
        { status := some "done" } 9).2 =
      .ok (some (applyProjectUpdate
        ⟨7, "p", none, "active", [], 3, true, 10, 10, none⟩
        { status := some "done" } 9)) := by
  have h := entity_update_frame
    [⟨1, "t", some "d", some 3, false, 5, 5⟩] [{ id := 1, username := "u" }]
    [⟨7, "p", none, "active", [], 3, true, 10, 10, none⟩]
    1 1 7 9
    ⟨.unset, .unset, .unset, .val true⟩ { name := .val "x" }
    { status := some "done" }
    ⟨1, "t", some "d", some 3, false, 5, 5⟩ { id := 1, username := "u" }
    ⟨7, "p", none, "active", [], 3, true, 10, 10, none⟩
    (by decide) (by decide) (by decide) (by decide) (by decide) (by decide)
  exact ⟨⟨by decide, by decide, by decide, by decide, by decide, by decide⟩,
    h.1.1, h.2.1.1, h.2.2.1⟩
